import Mathlib

/-!
Shallow embedding of the go-simple-crud task service
(`handlers/tasks.go`, `models/task.go`, `database/database.go`, `main.go`).

Modelling choices:
* A `Task` mirrors `models.Task`; `time.Time` values are abstract instants
  modelled as `Nat` (the zero value of `time.Time` is modelled as `0`).
* The SQLite table is a `List Task`; GORM calls made by the handlers are
  modelled after the documented behaviour of GORM (`gormCreate`, `gormDelete`,
  `dbFirst`), since GORM is an external dependency, not repository code.
* A handler run is modelled as the list of `respondWithJSON` write actions
  it performs (status code paired with the `Response` envelope it passes),
  together with the resulting store.  `net/http` lets a handler call the
  writer several times: only the first `WriteHeader` fixes the HTTP status,
  and a handler that never writes gets an implicit 200 (`httpStatus`).
* JSON decoding of a request body (`encoding/json`) is modelled by
  `decodeBody` over a `TaskBody` of optional fields: a field absent from
  the body leaves the Go zero value in place.  A body that fails to parse
  is an `Except.error`.
* Storage outcomes that depend on I/O (`DB.Find`, `DB.First`, `DB.Create`)
  are passed to the handler embeddings explicitly, so that claims can
  quantify over every storage outcome, including I/O failures.
-/

namespace Crud

/-- Task mirrors `models.Task`: id, title, description, status and the two
timestamps, exactly the fields the JSON codec sees. -/
structure Task where
  id : Nat
  title : String
  description : String
  status : String
  createdAt : Nat
  updatedAt : Nat
deriving DecidableEq, Repr

/-- Request body as `encoding/json` sees it: each field of `models.Task`
may or may not be present in the JSON object. -/
structure TaskBody where
  id : Option Nat
  title : Option String
  description : Option String
  status : Option String
  createdAt : Option Nat
  updatedAt : Option Nat
deriving DecidableEq, Repr

/-- Go JSON decoding into a zero-valued `models.Task`: absent fields keep
the zero value (0 for numbers and times, the empty string for strings). -/
def decodeBody (b : TaskBody) : Task :=
  ⟨b.id.getD 0, b.title.getD "", b.description.getD "", b.status.getD "",
   b.createdAt.getD 0, b.updatedAt.getD 0⟩

/-- Storage error signals: GORM reports record-not-found distinctly from
other (I/O) errors, but the handlers only ever test `result.Error != nil`. -/
inductive DBErr where
  | notFound
  | ioError
deriving DecidableEq, Repr

/-- GORM `DB.First(&task, id)` on the task table: the row whose primary key
equals `id`, or `ErrRecordNotFound`. -/
def dbFirst (s : List Task) (id : Nat) : Except DBErr Task :=
  match s.find? (fun t => t.id == id) with
  | some t => Except.ok t
  | none => Except.error DBErr.notFound

/-- Next auto-assigned primary key, per SQLite rowid assignment: one more
than the largest id in the table. -/
def nextId (s : List Task) : Nat :=
  (s.foldl (fun m t => max m t.id) 0) + 1

/-- GORM `DB.Create(&task)` semantics per the GORM documentation (GORM is an
external library): a non-zero primary key supplied on the struct is inserted
as given, a zero primary key is auto-assigned; `CreatedAt`/`UpdatedAt` are
set to the current time only when their value is zero. -/
def gormCreate (s : List Task) (t : Task) (now : Nat) : Task :=
  ⟨if t.id = 0 then nextId s else t.id,
   t.title, t.description, t.status,
   if t.createdAt = 0 then now else t.createdAt,
   if t.updatedAt = 0 then now else t.updatedAt⟩

/-- GORM `DB.Delete(&task)` semantics per the GORM documentation: deleting by
the primary key of the struct removes the matching row; with a zero primary key
there is no condition, GORM refuses the global delete
(`ErrMissingWhereClause`) and removes nothing. -/
def gormDelete (s : List Task) (id : Nat) : List Task :=
  if id = 0 then s else s.filter (fun t => t.id != id)

/-- Payloads the handlers actually place in `Response.Data`: a single task
or a list of tasks. -/
inductive RespData where
  | task (t : Task)
  | tasks (ts : List Task)
deriving DecidableEq, Repr

/-- Response mirrors the envelope struct of the handlers: `Status` (an integer),
`Message`, and the optional `Data` payload (`json:"data,omitempty"`). -/
structure Response where
  status : Nat
  message : String
  data : Option RespData
deriving DecidableEq, Repr

/-- One write action performed through `respondWithJSON`: the status code
passed to `WriteHeader` paired with the envelope marshalled into the body. -/
abbrev Wr := Nat × Response

/-- Helper `respondWithError(w, code, message)`: wraps the code and message
in an envelope with no data and hands them to `respondWithJSON`. -/
def respondWithError (code : Nat) (message : String) : Wr :=
  (code, ⟨code, message, none⟩)

/-- Handler `GetAllTasks`: on a storage error it writes a 500 envelope and
returns; on success it returns without writing anything (the success
response present in the README version in the repository is missing here). -/
def GetAllTasks (findResult : Except DBErr (List Task)) : List Wr :=
  match findResult with
  | Except.error _ => [respondWithError 500 "Error retrieving tasks"]
  | Except.ok _tasks => []

/-- Handler `GetTask`: any error from `DB.First` becomes a 404 envelope;
otherwise a 200 envelope carrying the task. -/
def GetTask (firstResult : Except DBErr Task) : List Wr :=
  match firstResult with
  | Except.error _ => [respondWithError 404 "Task not found"]
  | Except.ok task =>
      [(200, ⟨200, "Task retrieview sucessfully", some (RespData.task task)⟩)]

/-- Handler `CreateTask`: decode the body straight into a `models.Task`
(400 on decode failure, nothing stored), then `DB.Create` (500 on storage
failure), then a 201 envelope carrying the created record. -/
def CreateTask (body : Except Unit TaskBody) (s : List Task) (now : Nat)
    (createFails : Bool) : List Wr × List Task :=
  match body with
  | Except.error _ => ([respondWithError 400 "Invalid request payload"], s)
  | Except.ok b =>
      let task := decodeBody b
      if createFails then
        ([respondWithError 500 "Error creating task"], s)
      else
        let created := gormCreate s task now
        ([(201, ⟨201, "Task created successfully", some (RespData.task created)⟩)],
         s ++ [created])

/-- Handler `UpdateTask`: `DB.First` by the path id (404 and return when it
errors, before the body is touched); decode the body (400 on failure); copy
the title/description/status of the body onto the fetched record; then respond
200 with that record.  The `Save changes` comment in the source is not
followed by any `DB.Save` call, so the store is returned unchanged. -/
def UpdateTask (s : List Task) (id : Nat) (body : Except Unit TaskBody) :
    List Wr × List Task :=
  match dbFirst s id with
  | Except.error _ => ([respondWithError 404 "Tas not foun"], s)
  | Except.ok task =>
      match body with
      | Except.error _ => ([respondWithError 400 "Invalid request payload"], s)
      | Except.ok b =>
          let updatedTask := decodeBody b
          let merged : Task :=
            ⟨task.id, updatedTask.title, updatedTask.description,
             updatedTask.status, task.createdAt, task.updatedAt⟩
          ([(200, ⟨200, "Task updated successfully", some (RespData.task merged)⟩)], s)

/-- Handler `DeleteTask`: `DB.First` by the path id; on error it writes the
404 envelope but does NOT return (the `return` present in the README
version is missing), so it falls through, calls `DB.Delete` on the still
zero-valued task, and writes the success envelope as well.  On the found
path it deletes the record and writes the success envelope. -/
def DeleteTask (s : List Task) (id : Nat) : List Wr × List Task :=
  match dbFirst s id with
  | Except.error _ =>
      ([respondWithError 404 "Task not found",
        (200, ⟨200, "Task deleted successfully", none⟩)],
       gormDelete s 0)
  | Except.ok task =>
      ([(200, ⟨200, "Task deleted successfully", none⟩)],
       gormDelete s task.id)

/-- The HTTP status code of the response a sequence of writes produces:
`net/http` honours only the first `WriteHeader`; a handler that returns
without writing gets an implicit 200. -/
def httpStatus (writes : List Wr) : Nat :=
  match writes with
  | [] => 200
  | w :: _ => w.1

/-- One fully rendered HTTP response: Content-Type header, status code and
body bytes. -/
structure HttpOut where
  contentType : String
  status : Nat
  body : String
deriving DecidableEq, Repr

/-- Helper `respondWithJSON(w, code, payload)`: `json.Marshal` with its
error discarded (on error the returned slice is nil, so `w.Write` writes
nothing), then Content-Type, then `WriteHeader(code)`, then the body.  The
marshal outcome is passed in explicitly since `json.Marshal` is Go library
code. -/
def respondWithJSON (code : Nat) (marshalResult : Except String String) : HttpOut :=
  ⟨"application/json", code,
   match marshalResult with
   | Except.ok s => s
   | Except.error _ => ""⟩

/-- Claim C1 (code bug): updating an existing task responds 200 with the
merged record, but the store returned by `UpdateTask` is unchanged (there is
no `DB.Save` call), so the subsequent GET still returns the old record with
status "pending" rather than the "completed" of the update payload. -/
theorem update_not_persisted_bug :
    (UpdateTask [⟨1, "Learn Go", "Study", "pending", 10, 10⟩] 1
        (Except.ok ⟨none, some "Learn Go", some "Study", some "completed", none, none⟩)).1 =
      [(200, ⟨200, "Task updated successfully",
          some (RespData.task ⟨1, "Learn Go", "Study", "completed", 10, 10⟩)⟩)] ∧
    (UpdateTask [⟨1, "Learn Go", "Study", "pending", 10, 10⟩] 1
        (Except.ok ⟨none, some "Learn Go", some "Study", some "completed", none, none⟩)).2 =
      [⟨1, "Learn Go", "Study", "pending", 10, 10⟩] ∧
    GetTask (dbFirst
        (UpdateTask [⟨1, "Learn Go", "Study", "pending", 10, 10⟩] 1
          (Except.ok ⟨none, some "Learn Go", some "Study", some "completed", none, none⟩)).2 1) =
      [(200, ⟨200, "Task retrieview sucessfully",
          some (RespData.task ⟨1, "Learn Go", "Study", "pending", 10, 10⟩)⟩)] ∧
    ("pending" : String) ≠ "completed" :=
  ⟨rfl, rfl, rfl, by decide⟩

/-- Claim C2 (code bug): when the storage read succeeds, `GetAllTasks`
performs no write at all — the client receives the implicit 200 with an
empty body, never the promised envelope with the array of tasks. -/
theorem getAllTasks_success_writes_nothing (ts : List Task) :
    GetAllTasks (Except.ok ts) = [] ∧
    httpStatus (GetAllTasks (Except.ok ts)) = 200 :=
  ⟨rfl, rfl⟩

/-- Claim C3 (code bug): deleting a nonexistent id writes the 404 envelope
but then falls through (missing `return`): it invokes the storage delete on
the zero-valued task (which GORM rejects, leaving the store unchanged) and
appends a success envelope; the HTTP status is still 404 because the first
header write wins. -/
theorem deleteTask_missing_id_falls_through :
    DeleteTask [] 1 =
      ([(404, ⟨404, "Task not found", none⟩),
        (200, ⟨200, "Task deleted successfully", none⟩)], []) ∧
    httpStatus (DeleteTask [] 1).1 = 404 :=
  ⟨rfl, rfl⟩

/-- Claim C4 counterexample: a create body carrying id 42 produces a stored
record with id 42 — the identifier from the body is used, not the
system-assigned `nextId` (which would be 1 on the empty store). -/
theorem create_uses_body_id_counterexample :
    (CreateTask (Except.ok ⟨some 42, some "t", some "d", some "pending", none, none⟩)
        [] 5 false).2 = [⟨42, "t", "d", "pending", 5, 5⟩] ∧
    nextId [] = 1 ∧ (42 : Nat) ≠ 1 :=
  ⟨rfl, rfl, by decide⟩

/-- Claim C4 as amended: identifier and timestamp fields of the body are
passed through to the storage layer; the id is system-assigned and the
timestamps set by the storage layer only when the corresponding body fields
are absent or zero, otherwise the body values are used as-is. -/
theorem create_passthrough_semantics (b : TaskBody) (s : List Task) (n : Nat) :
    CreateTask (Except.ok b) s n false =
      ([(201, ⟨201, "Task created successfully",
          some (RespData.task (gormCreate s (decodeBody b) n))⟩)],
       s ++ [gormCreate s (decodeBody b) n]) ∧
    (gormCreate s (decodeBody b) n).id =
      (if b.id.getD 0 = 0 then nextId s else b.id.getD 0) ∧
    (gormCreate s (decodeBody b) n).createdAt =
      (if b.createdAt.getD 0 = 0 then n else b.createdAt.getD 0) ∧
    (gormCreate s (decodeBody b) n).updatedAt =
      (if b.updatedAt.getD 0 = 0 then n else b.updatedAt.getD 0) :=
  ⟨rfl, rfl, rfl, rfl⟩

/-- Claim C5: on an existing id with a body that parses, the record the
handler forms and returns takes title/description/status from the body
(absent fields becoming empty values via the zero-value decode) and
id/created-at from the existing record, never from the body. -/
theorem update_overwrite_semantics (s : List Task) (id : Nat) (b : TaskBody)
    (task : Task) (h : dbFirst s id = Except.ok task) :
    UpdateTask s id (Except.ok b) =
      ([(200, ⟨200, "Task updated successfully",
          some (RespData.task ⟨task.id, b.title.getD "", b.description.getD "",
            b.status.getD "", task.createdAt, task.updatedAt⟩)⟩)], s) := by
  unfold UpdateTask
  rw [h]
  rfl

/-- Witness for C5 at a concrete store and body: the body supplies a new
title and status, omits the description (which becomes empty) and supplies
a created-at of 9 that is ignored in favour of the stored 3. -/
theorem update_overwrite_semantics_witness :
    UpdateTask [⟨1, "a", "b", "pending", 3, 4⟩] 1
        (Except.ok ⟨none, some "x", none, some "completed", some 9, none⟩) =
      ([(200, ⟨200, "Task updated successfully",
          some (RespData.task ⟨1, "x", "", "completed", 3, 4⟩)⟩)],
       [⟨1, "a", "b", "pending", 3, 4⟩]) :=
  update_overwrite_semantics [⟨1, "a", "b", "pending", 3, 4⟩] 1
    ⟨none, some "x", none, some "completed", some 9, none⟩
    ⟨1, "a", "b", "pending", 3, 4⟩ rfl

/-- Claim C6: a body that fails to parse yields exactly one 400 write and
leaves the store — hence the count a subsequent list sees — unchanged. -/
theorem create_bad_body_creates_nothing (s : List Task) (n : Nat) (cf : Bool) :
    CreateTask (Except.error ()) s n cf =
      ([(400, ⟨400, "Invalid request payload", none⟩)], s) ∧
    ((CreateTask (Except.error ()) s n cf).2).length = s.length :=
  ⟨rfl, rfl⟩

/-- Claim C7 (code bug): on a delete of a missing id the response carries
HTTP status 404 yet its body also holds a second envelope whose status
field is 200 — the envelope status does not mirror the HTTP status of the
response, breaking the uniform envelope contract. -/
theorem delete_envelope_status_mismatch_bug :
    httpStatus (DeleteTask [⟨2, "a", "b", "pending", 1, 1⟩] 7).1 = 404 ∧
    (DeleteTask [⟨2, "a", "b", "pending", 1, 1⟩] 7).1 =
      [(404, ⟨404, "Task not found", none⟩),
       (200, ⟨200, "Task deleted successfully", none⟩)] ∧
    (200 : Nat) ≠ httpStatus (DeleteTask [⟨2, "a", "b", "pending", 1, 1⟩] 7).1 :=
  ⟨rfl, rfl, by decide⟩

/-- Claim C8: `UpdateTask` checks existence before reading the body: when
the lookup errors, the response is the single 404 write whatever the body
is — even a body that fails to parse — and the store is unchanged. -/
theorem update_existence_check_precedes_parse (s : List Task) (id : Nat)
    (e : DBErr) (b1 b2 : Except Unit TaskBody)
    (h : dbFirst s id = Except.error e) :
    UpdateTask s id b1 = ([(404, ⟨404, "Tas not foun", none⟩)], s) ∧
    UpdateTask s id b1 = UpdateTask s id b2 := by
  unfold UpdateTask
  rw [h]
  exact ⟨rfl, rfl⟩

/-- Witness for C8: on the empty store, id 5 with a malformed body yields
the 404 write, identical to the outcome with a well-formed body. -/
theorem update_existence_check_precedes_parse_witness :
    UpdateTask [] 5 (Except.error ()) = ([(404, ⟨404, "Tas not foun", none⟩)], []) ∧
    UpdateTask [] 5 (Except.error ()) =
      UpdateTask [] 5 (Except.ok ⟨none, none, none, none, none, none⟩) :=
  update_existence_check_precedes_parse [] 5 DBErr.notFound (Except.error ())
    (Except.ok ⟨none, none, none, none, none, none⟩) rfl

/-- Claim C9: `GetTask` can only answer 200 or 404: every lookup error,
the I/O failure included, is mapped to the 404 envelope, and no outcome
yields 500. -/
theorem getTask_only_200_or_404 (r : Except DBErr Task) (e : DBErr) :
    (httpStatus (GetTask r) = 200 ∨ httpStatus (GetTask r) = 404) ∧
    httpStatus (GetTask r) ≠ 500 ∧
    GetTask (Except.error e) = [(404, ⟨404, "Task not found", none⟩)] := by
  cases r with
  | ok t =>
      refine ⟨Or.inl rfl, ?_, rfl⟩
      show (200 : Nat) ≠ 500
      decide
  | error e2 =>
      refine ⟨Or.inr rfl, ?_, rfl⟩
      show (404 : Nat) ≠ 500
      decide

/-- Claim C10: `respondWithJSON` always declares application/json and the
given status code; when the marshal fails the discarded error leaves a nil
slice, so the body written is empty while the status stands. -/
theorem respondWithJSON_unconditional_status (code : Nat) (s e : String) :
    respondWithJSON code (Except.ok s) = ⟨"application/json", code, s⟩ ∧
    respondWithJSON code (Except.error e) = ⟨"application/json", code, ""⟩ ∧
    (respondWithJSON code (Except.error e)).status = code ∧
    (respondWithJSON code (Except.error e)).contentType = "application/json" :=
  ⟨rfl, rfl, rfl, rfl⟩

end Crud
